import Mathlib

/-!
Verification of the flight-path geometry engine of the disc-golf mobile
client (`src/lib/flightCalculator.ts`).  The engine is a pure function from
flight numbers, a throw type and a canvas configuration to three cubic
Bézier curve descriptors, one per release angle.

The TypeScript source computes with IEEE doubles; here every numeric value
is embedded as a rational (`ℚ`), which models the real-number semantics the
specification reasons in (all constants in the source are decimal literals,
so every intermediate value is an exact rational).  The SVG output string
`M sx sy C c1x c1y, c2x c2y, ex ey` is represented by the structure
`PathDesc` holding its eight coordinates; two path strings are equal iff
the corresponding `PathDesc`s are.
-/

/-- The four flight-characteristic numbers of a disc
(`interface FlightNumbers`). -/
structure FlightNumbers where
  speed : ℚ
  glide : ℚ
  turn : ℚ
  fade : ℚ
deriving DecidableEq

/-- `type ThrowType = 'rhbh' | 'rhfh' | 'lhbh' | 'lhfh'`. -/
inductive ThrowType
  | rhbh
  | rhfh
  | lhbh
  | lhfh
deriving DecidableEq

/-- `type ReleaseAngle = 'hyzer' | 'flat' | 'anhyzer'`. -/
inductive ReleaseAngle
  | hyzer
  | flat
  | anhyzer
deriving DecidableEq

/-- `interface CanvasConfig` — rendering-space parameters. -/
structure CanvasConfig where
  width : ℚ
  height : ℚ
  startX : ℚ
  startY : ℚ
  maxDistance : ℚ
deriving DecidableEq

/-- `const DEFAULT_CONFIG` from the source:
`{width: 200, height: 300, startX: 100, startY: 280, maxDistance: 400}`. -/
def DEFAULT_CONFIG : CanvasConfig :=
  ⟨200, 300, 100, 280, 400⟩

/-- A cubic Bézier curve descriptor: the eight coordinates of the SVG path
string `M startX startY C cp1X cp1Y, cp2X cp2Y, endX endY`. -/
structure PathDesc where
  startX : ℚ
  startY : ℚ
  cp1X : ℚ
  cp1Y : ℚ
  cp2X : ℚ
  cp2Y : ℚ
  endX : ℚ
  endY : ℚ
deriving DecidableEq

/-- `interface FlightPaths` — one curve descriptor per release angle. -/
structure FlightPaths where
  hyzer : PathDesc
  flat : PathDesc
  anhyzer : PathDesc
deriving DecidableEq

/-- `const availableHeight = startY - 20` (from `generatePath`). -/
def availableHeight (config : CanvasConfig) : ℚ :=
  config.startY - 20

/-- `const pixelsPerFoot = availableHeight / maxDistance`. -/
def pixelsPerFoot (config : CanvasConfig) : ℚ :=
  availableHeight config / config.maxDistance

/-- `const baseDistance = 30 + speed * 28`. -/
def baseDistance (f : FlightNumbers) : ℚ :=
  30 + f.speed * 28

/-- `const glideBonus = glide * 5`. -/
def glideBonus (f : FlightNumbers) : ℚ :=
  f.glide * 5

/-- `const estimatedDistance = Math.min(baseDistance + glideBonus, maxDistance)`. -/
def estimatedDistance (f : FlightNumbers) (config : CanvasConfig) : ℚ :=
  min (baseDistance f + glideBonus f) config.maxDistance

/-- `const flightLength = estimatedDistance * pixelsPerFoot`. -/
def flightLength (f : FlightNumbers) (config : CanvasConfig) : ℚ :=
  estimatedDistance f config * pixelsPerFoot config

/-- `const effectScale = flightLength / 250`. -/
def effectScale (f : FlightNumbers) (config : CanvasConfig) : ℚ :=
  flightLength f config / 250

/-- `let turnEffect = turn * 10 * effectScale`, then the release-angle
switch (`hyzer: *= 0.5`, `anhyzer: *= 1.6`, `flat`: unchanged), then the
mirror negation (`if (mirror) turnEffect = -turnEffect`). -/
def turnEffect (f : FlightNumbers) (releaseAngle : ReleaseAngle)
    (mirror : Bool) (config : CanvasConfig) : ℚ :=
  let t := f.turn * 10 * effectScale f config
  let t :=
    match releaseAngle with
    | ReleaseAngle.hyzer => t * 0.5
    | ReleaseAngle.anhyzer => t * 1.6
    | ReleaseAngle.flat => t
  if mirror then -t else t

/-- `let fadeEffect = fade * 15 * effectScale`, then the release-angle
switch (`hyzer: *= 1.4`, `anhyzer: *= 0.6`, `flat`: unchanged), then the
mirror negation (`if (mirror) fadeEffect = -fadeEffect`). -/
def fadeEffect (f : FlightNumbers) (releaseAngle : ReleaseAngle)
    (mirror : Bool) (config : CanvasConfig) : ℚ :=
  let e := f.fade * 15 * effectScale f config
  let e :=
    match releaseAngle with
    | ReleaseAngle.hyzer => e * 1.4
    | ReleaseAngle.anhyzer => e * 0.6
    | ReleaseAngle.flat => e
  if mirror then -e else e

/-- `const arcHeight = glide * 6 * effectScale`. -/
def arcHeight (f : FlightNumbers) (config : CanvasConfig) : ℚ :=
  f.glide * 6 * effectScale f config

/-- `function generatePath(flightNumbers, releaseAngle, mirror, config)`:
assembles the cubic Bézier descriptor
`M startX startY C cp1X cp1Y, cp2X cp2Y, endX endY` with
`endY = startY - flightLength`, `endX = startX - fadeEffect`,
`cp1 = (startX + turnEffect, startY - flightLength * 0.4)`,
`cp2 = (startX + turnEffect * 0.5 - fadeEffect * 0.3, endY + arcHeight)`. -/
def generatePath (f : FlightNumbers) (releaseAngle : ReleaseAngle)
    (mirror : Bool) (config : CanvasConfig) : PathDesc :=
  let sx := config.startX
  let sy := config.startY
  let fl := flightLength f config
  let tE := turnEffect f releaseAngle mirror config
  let fE := fadeEffect f releaseAngle mirror config
  let aH := arcHeight f config
  ⟨sx, sy,
   sx + tE, sy - fl * 0.4,
   sx + tE * 0.5 - fE * 0.3, (sy - fl) + aH,
   sx - fE, sy - fl⟩

/-- `const shouldMirror = throwType === 'rhfh' || throwType === 'lhbh'`. -/
def shouldMirror (throwType : ThrowType) : Bool :=
  throwType == ThrowType.rhfh || throwType == ThrowType.lhbh

/-- `export function calculateFlightPath(flightNumbers, throwType, config =
DEFAULT_CONFIG)`: returns the three descriptors keyed by release angle. -/
def calculateFlightPath (flightNumbers : FlightNumbers) (throwType : ThrowType)
    (config : CanvasConfig := DEFAULT_CONFIG) : FlightPaths :=
  let m := shouldMirror throwType
  ⟨generatePath flightNumbers ReleaseAngle.hyzer m config,
   generatePath flightNumbers ReleaseAngle.flat m config,
   generatePath flightNumbers ReleaseAngle.anhyzer m config⟩

/-- Select the descriptor of a given release angle from a `FlightPaths`. -/
def pathAt (p : FlightPaths) (releaseAngle : ReleaseAngle) : PathDesc :=
  match releaseAngle with
  | ReleaseAngle.hyzer => p.hyzer
  | ReleaseAngle.flat => p.flat
  | ReleaseAngle.anhyzer => p.anhyzer

theorem shouldMirror_rhbh : shouldMirror ThrowType.rhbh = false := rfl

theorem shouldMirror_rhfh : shouldMirror ThrowType.rhfh = true := rfl

theorem shouldMirror_lhbh : shouldMirror ThrowType.lhbh = true := rfl

theorem shouldMirror_lhfh : shouldMirror ThrowType.lhfh = false := rfl

/-- Claim C1: for every flight-numbers value and every canvas config,
`calculateFlightPath` with throw type `rhbh` returns exactly the same
`FlightPaths` as with `lhfh`, and with `rhfh` exactly the same as with
`lhbh`. -/
theorem c1_throw_equivalence (f : FlightNumbers) (c : CanvasConfig) :
    calculateFlightPath f ThrowType.rhbh c = calculateFlightPath f ThrowType.lhfh c ∧
    calculateFlightPath f ThrowType.rhfh c = calculateFlightPath f ThrowType.lhbh c :=
  ⟨rfl, rfl⟩

/-- Claim C2: for every input and release angle, the forehand (`rhfh`)
curve is the exact horizontal reflection of the backhand (`rhbh`) curve
about `x = startX`: each x-coordinate of the forehand end point and control
points is `startX` minus the backhand offset, and all y-coordinates (and
the start point) coincide. -/
theorem c2_mirror_law (f : FlightNumbers) (c : CanvasConfig) (ra : ReleaseAngle) :
    (pathAt (calculateFlightPath f ThrowType.rhfh c) ra).endX
      = c.startX - ((pathAt (calculateFlightPath f ThrowType.rhbh c) ra).endX - c.startX) ∧
    (pathAt (calculateFlightPath f ThrowType.rhfh c) ra).cp1X
      = c.startX - ((pathAt (calculateFlightPath f ThrowType.rhbh c) ra).cp1X - c.startX) ∧
    (pathAt (calculateFlightPath f ThrowType.rhfh c) ra).cp2X
      = c.startX - ((pathAt (calculateFlightPath f ThrowType.rhbh c) ra).cp2X - c.startX) ∧
    (pathAt (calculateFlightPath f ThrowType.rhfh c) ra).startX
      = (pathAt (calculateFlightPath f ThrowType.rhbh c) ra).startX ∧
    (pathAt (calculateFlightPath f ThrowType.rhfh c) ra).startY
      = (pathAt (calculateFlightPath f ThrowType.rhbh c) ra).startY ∧
    (pathAt (calculateFlightPath f ThrowType.rhfh c) ra).cp1Y
      = (pathAt (calculateFlightPath f ThrowType.rhbh c) ra).cp1Y ∧
    (pathAt (calculateFlightPath f ThrowType.rhfh c) ra).cp2Y
      = (pathAt (calculateFlightPath f ThrowType.rhbh c) ra).cp2Y ∧
    (pathAt (calculateFlightPath f ThrowType.rhfh c) ra).endY
      = (pathAt (calculateFlightPath f ThrowType.rhbh c) ra).endY := by
  cases ra <;>
    refine ⟨?_, ?_, ?_, ?_, ?_, ?_, ?_, ?_⟩ <;>
      simp [calculateFlightPath, pathAt, generatePath, shouldMirror,
        turnEffect, fadeEffect] <;> ring

/-- Claim C3, counterexample: with `maxDistance = 0` (and otherwise default
canvas values), flight numbers `speed = 1, glide = 1` give
`baseDistance + glideBonus = 63 > 0 = maxDistance`, yet
`flightLength = 0 ≠ 260 = availableHeight` and the flat `rhbh` curve ends at
`endY = 280 ≠ 20`. -/
theorem c3_counterexample :
    baseDistance ⟨1, 1, 0, 0⟩ + glideBonus ⟨1, 1, 0, 0⟩
        > (⟨200, 300, 100, 280, 0⟩ : CanvasConfig).maxDistance ∧
    flightLength ⟨1, 1, 0, 0⟩ ⟨200, 300, 100, 280, 0⟩
        ≠ availableHeight ⟨200, 300, 100, 280, 0⟩ ∧
    (pathAt (calculateFlightPath ⟨1, 1, 0, 0⟩ ThrowType.rhbh ⟨200, 300, 100, 280, 0⟩)
        ReleaseAngle.flat).endY ≠ 20 := by
  refine ⟨by norm_num [baseDistance, glideBonus], ?_, ?_⟩ <;>
    norm_num [flightLength, estimatedDistance, pixelsPerFoot, availableHeight,
      baseDistance, glideBonus, calculateFlightPath, pathAt, generatePath, shouldMirror]

/-- Claim C3 (amended with `maxDistance ≠ 0`): whenever
`baseDistance + glideBonus` strictly exceeds a nonzero `maxDistance`, the
computed `flightLength` equals `availableHeight = startY - 20` exactly, and
for every throw type and release angle the curve ends at `endY = 20`. -/
theorem c3_distance_cap (f : FlightNumbers) (c : CanvasConfig)
    (hover : baseDistance f + glideBonus f > c.maxDistance)
    (hM : c.maxDistance ≠ 0) (t : ThrowType) (ra : ReleaseAngle) :
    flightLength f c = availableHeight c ∧
    (pathAt (calculateFlightPath f t c) ra).endY = 20 := by
  have hfl : flightLength f c = availableHeight c := by
    unfold flightLength estimatedDistance pixelsPerFoot
    rw [min_eq_right (le_of_lt hover)]
    field_simp
  refine ⟨hfl, ?_⟩
  cases ra <;>
    simp [calculateFlightPath, pathAt, generatePath, hfl, availableHeight]

/-- Claim C3 witness: `speed = 15, glide = 7` with the default canvas gives
`baseDistance + glideBonus = 485 > 400`, and the cap applies exactly. -/
theorem c3_distance_cap_witness :
    flightLength ⟨15, 7, 0, 0⟩ DEFAULT_CONFIG = availableHeight DEFAULT_CONFIG ∧
    (pathAt (calculateFlightPath ⟨15, 7, 0, 0⟩ ThrowType.rhbh DEFAULT_CONFIG)
        ReleaseAngle.flat).endY = 20 :=
  c3_distance_cap ⟨15, 7, 0, 0⟩ DEFAULT_CONFIG
    (by norm_num [baseDistance, glideBonus, DEFAULT_CONFIG])
    (by norm_num [DEFAULT_CONFIG]) ThrowType.rhbh ReleaseAngle.flat

/-- Claim C4: for `speed = 12, glide = 5, turn = -1, fade = 3` with `rhbh`
and the default canvas, the flat path starts at `(100, 280)`,
`estimatedDistance = 391`, `pixelsPerFoot = 0.65`,
`flightLength = 391 * 0.65 = 254.15`,
`fadeEffect = 3 * 15 * (254.15 / 250)` (≈ 45.75), and the flat end point is
within `0.01` of `(54.25, 25.85)` with `endY = 25.85` exact; with `rhfh` the
flat end point is within `0.01` of the mirror `(145.75, 25.85)`. -/
theorem c4_scenario :
    (calculateFlightPath ⟨12, 5, -1, 3⟩ ThrowType.rhbh DEFAULT_CONFIG).flat.startX = 100 ∧
    (calculateFlightPath ⟨12, 5, -1, 3⟩ ThrowType.rhbh DEFAULT_CONFIG).flat.startY = 280 ∧
    estimatedDistance ⟨12, 5, -1, 3⟩ DEFAULT_CONFIG = 391 ∧
    pixelsPerFoot DEFAULT_CONFIG = 0.65 ∧
    flightLength ⟨12, 5, -1, 3⟩ DEFAULT_CONFIG = 391 * 0.65 ∧
    fadeEffect ⟨12, 5, -1, 3⟩ ReleaseAngle.flat false DEFAULT_CONFIG
      = 3 * 15 * (254.15 / 250) ∧
    |(calculateFlightPath ⟨12, 5, -1, 3⟩ ThrowType.rhbh DEFAULT_CONFIG).flat.endX - 54.25|
      ≤ 0.01 ∧
    (calculateFlightPath ⟨12, 5, -1, 3⟩ ThrowType.rhbh DEFAULT_CONFIG).flat.endY = 25.85 ∧
    |(calculateFlightPath ⟨12, 5, -1, 3⟩ ThrowType.rhfh DEFAULT_CONFIG).flat.endX - 145.75|
      ≤ 0.01 ∧
    (calculateFlightPath ⟨12, 5, -1, 3⟩ ThrowType.rhfh DEFAULT_CONFIG).flat.endY = 25.85 := by
  refine ⟨rfl, rfl, ?_, ?_, ?_, ?_, ?_, ?_, ?_, ?_⟩ <;>
    simp only [calculateFlightPath, shouldMirror_rhbh, shouldMirror_rhfh, generatePath,
      fadeEffect, turnEffect, effectScale, flightLength, estimatedDistance, pixelsPerFoot,
      availableHeight, baseDistance, glideBonus, DEFAULT_CONFIG] <;>
    norm_num [min_def, abs_le]

theorem fadeEffect_flat_abs (f : FlightNumbers) (m : Bool) (c : CanvasConfig) :
    |fadeEffect f ReleaseAngle.flat m c| = |f.fade * 15 * effectScale f c| := by
  cases m <;> simp [fadeEffect, abs_neg]

theorem fadeEffect_hyzer_abs (f : FlightNumbers) (m : Bool) (c : CanvasConfig) :
    |fadeEffect f ReleaseAngle.hyzer m c| = |f.fade * 15 * effectScale f c| * 1.4 := by
  cases m <;> simp [fadeEffect, abs_neg, abs_mul] <;> norm_num

theorem fadeEffect_anhyzer_abs (f : FlightNumbers) (m : Bool) (c : CanvasConfig) :
    |fadeEffect f ReleaseAngle.anhyzer m c| = |f.fade * 15 * effectScale f c| * 0.6 := by
  cases m <;> simp [fadeEffect, abs_neg, abs_mul] <;> norm_num

theorem endX_sub_startX (f : FlightNumbers) (ra : ReleaseAngle) (m : Bool) (c : CanvasConfig) :
    (generatePath f ra m c).endX - c.startX = -fadeEffect f ra m c := by
  simp [generatePath]

/-- Claim C5, counterexample: with `fade = 3 ≠ 0` but `speed = 0` and
`glide = -6` (so `estimatedDistance = min(0, 400) = 0` and `effectScale = 0`),
every fade offset vanishes, and the hyzer fade offset is not strictly
greater than the flat one. -/
theorem c5_counterexample :
    (⟨0, -6, 0, 3⟩ : FlightNumbers).fade ≠ 0 ∧
    ¬ (|(calculateFlightPath ⟨0, -6, 0, 3⟩ ThrowType.rhbh DEFAULT_CONFIG).hyzer.endX
          - DEFAULT_CONFIG.startX|
        > |(calculateFlightPath ⟨0, -6, 0, 3⟩ ThrowType.rhbh DEFAULT_CONFIG).flat.endX
          - DEFAULT_CONFIG.startX|) := by
  constructor
  · norm_num
  · simp only [calculateFlightPath, shouldMirror_rhbh, generatePath, fadeEffect, turnEffect,
      effectScale, flightLength, estimatedDistance, pixelsPerFoot, availableHeight,
      baseDistance, glideBonus, DEFAULT_CONFIG]
    norm_num [min_def]

/-- Claim C5 (amended with the extra hypothesis `effectScale ≠ 0`, i.e. a
nonzero flight length): when `fade ≠ 0` and `effectScale ≠ 0`, the hyzer
end-point fade offset `|endX - startX|` strictly exceeds the flat one and
the anhyzer one is strictly smaller; moreover, for both mirror values the
weighting multipliers on `fadeEffect` are `1.4` (hyzer) and `0.6` (anhyzer)
relative to flat, and on `turnEffect` are `0.5` (hyzer) and `1.6` (anhyzer)
relative to flat. -/
theorem c5_release_angle_ordering (f : FlightNumbers) (t : ThrowType) (c : CanvasConfig)
    (hf : f.fade ≠ 0) (hs : effectScale f c ≠ 0) :
    (|(calculateFlightPath f t c).hyzer.endX - c.startX|
        > |(calculateFlightPath f t c).flat.endX - c.startX| ∧
     |(calculateFlightPath f t c).anhyzer.endX - c.startX|
        < |(calculateFlightPath f t c).flat.endX - c.startX|) ∧
    (∀ m : Bool,
      fadeEffect f ReleaseAngle.hyzer m c = 1.4 * fadeEffect f ReleaseAngle.flat m c ∧
      fadeEffect f ReleaseAngle.anhyzer m c = 0.6 * fadeEffect f ReleaseAngle.flat m c ∧
      turnEffect f ReleaseAngle.hyzer m c = 0.5 * turnEffect f ReleaseAngle.flat m c ∧
      turnEffect f ReleaseAngle.anhyzer m c = 1.6 * turnEffect f ReleaseAngle.flat m c) := by
  have hzpos : 0 < |f.fade * 15 * effectScale f c| := by
    rw [abs_pos]
    exact mul_ne_zero (mul_ne_zero hf (by norm_num)) hs
  constructor
  · have h1 : (calculateFlightPath f t c).hyzer.endX - c.startX
        = -fadeEffect f ReleaseAngle.hyzer (shouldMirror t) c := by
      simp [calculateFlightPath, endX_sub_startX]
    have h2 : (calculateFlightPath f t c).flat.endX - c.startX
        = -fadeEffect f ReleaseAngle.flat (shouldMirror t) c := by
      simp [calculateFlightPath, endX_sub_startX]
    have h3 : (calculateFlightPath f t c).anhyzer.endX - c.startX
        = -fadeEffect f ReleaseAngle.anhyzer (shouldMirror t) c := by
      simp [calculateFlightPath, endX_sub_startX]
    rw [h1, h2, h3, abs_neg, abs_neg, abs_neg, fadeEffect_flat_abs,
      fadeEffect_hyzer_abs, fadeEffect_anhyzer_abs]
    constructor <;> nlinarith [hzpos]
  · intro m
    cases m <;>
      refine ⟨?_, ?_, ?_, ?_⟩ <;> simp [fadeEffect, turnEffect] <;> ring

/-- Claim C5 witness: `speed = 12, glide = 5, turn = -1, fade = 3` with
`rhbh` and the default canvas has `fade = 3 ≠ 0` and
`effectScale = 254.15 / 250 ≠ 0`, so the strict ordering and the
multipliers hold there. -/
theorem c5_release_angle_ordering_witness :
    (|(calculateFlightPath ⟨12, 5, -1, 3⟩ ThrowType.rhbh DEFAULT_CONFIG).hyzer.endX
        - DEFAULT_CONFIG.startX|
      > |(calculateFlightPath ⟨12, 5, -1, 3⟩ ThrowType.rhbh DEFAULT_CONFIG).flat.endX
        - DEFAULT_CONFIG.startX| ∧
     |(calculateFlightPath ⟨12, 5, -1, 3⟩ ThrowType.rhbh DEFAULT_CONFIG).anhyzer.endX
        - DEFAULT_CONFIG.startX|
      < |(calculateFlightPath ⟨12, 5, -1, 3⟩ ThrowType.rhbh DEFAULT_CONFIG).flat.endX
        - DEFAULT_CONFIG.startX|) ∧
    (∀ m : Bool,
      fadeEffect ⟨12, 5, -1, 3⟩ ReleaseAngle.hyzer m DEFAULT_CONFIG
        = 1.4 * fadeEffect ⟨12, 5, -1, 3⟩ ReleaseAngle.flat m DEFAULT_CONFIG ∧
      fadeEffect ⟨12, 5, -1, 3⟩ ReleaseAngle.anhyzer m DEFAULT_CONFIG
        = 0.6 * fadeEffect ⟨12, 5, -1, 3⟩ ReleaseAngle.flat m DEFAULT_CONFIG ∧
      turnEffect ⟨12, 5, -1, 3⟩ ReleaseAngle.hyzer m DEFAULT_CONFIG
        = 0.5 * turnEffect ⟨12, 5, -1, 3⟩ ReleaseAngle.flat m DEFAULT_CONFIG ∧
      turnEffect ⟨12, 5, -1, 3⟩ ReleaseAngle.anhyzer m DEFAULT_CONFIG
        = 1.6 * turnEffect ⟨12, 5, -1, 3⟩ ReleaseAngle.flat m DEFAULT_CONFIG) :=
  c5_release_angle_ordering ⟨12, 5, -1, 3⟩ ThrowType.rhbh DEFAULT_CONFIG
    (by norm_num)
    (by norm_num [effectScale, flightLength, estimatedDistance, pixelsPerFoot,
      availableHeight, baseDistance, glideBonus, DEFAULT_CONFIG, min_def])

/-- Claim C6, counterexample: with a canvas whose `startY = 0` the factor
`pixelsPerFoot = (0 - 20) / 400` is negative, and raising `speed` from 1 to
2 (all else fixed) strictly decreases `flightLength`
(from `-2.9` to `-4.3`). -/
theorem c6_counterexample :
    flightLength ⟨2, 0, 0, 0⟩ ⟨200, 300, 100, 0, 400⟩
      < flightLength ⟨1, 0, 0, 0⟩ ⟨200, 300, 100, 0, 400⟩ := by
  norm_num [flightLength, estimatedDistance, pixelsPerFoot, availableHeight,
    baseDistance, glideBonus, min_def]

/-- Claim C6 (amended with the extra hypothesis `0 ≤ pixelsPerFoot`, which
holds for every canvas with `startY ≥ 20` and `maxDistance > 0`, in
particular the default): increasing `speed` by 1 never decreases
`flightLength`, and `estimatedDistance` is non-decreasing in speed. -/
theorem c6_speed_monotonicity (f : FlightNumbers) (c : CanvasConfig)
    (hp : 0 ≤ pixelsPerFoot c) :
    estimatedDistance f c ≤ estimatedDistance ⟨f.speed + 1, f.glide, f.turn, f.fade⟩ c ∧
    flightLength f c ≤ flightLength ⟨f.speed + 1, f.glide, f.turn, f.fade⟩ c := by
  have hest : estimatedDistance f c
      ≤ estimatedDistance ⟨f.speed + 1, f.glide, f.turn, f.fade⟩ c := by
    unfold estimatedDistance baseDistance glideBonus
    refine min_le_min ?_ le_rfl
    simp only
    linarith
  exact ⟨hest, mul_le_mul_of_nonneg_right hest hp⟩

/-- Claim C6 witness: `speed = 5 → 6` with `glide = 4, turn = 0, fade = 2`
on the default canvas (`pixelsPerFoot = 0.65 ≥ 0`). -/
theorem c6_speed_monotonicity_witness :
    estimatedDistance ⟨5, 4, 0, 2⟩ DEFAULT_CONFIG
      ≤ estimatedDistance ⟨5 + 1, 4, 0, 2⟩ DEFAULT_CONFIG ∧
    flightLength ⟨5, 4, 0, 2⟩ DEFAULT_CONFIG
      ≤ flightLength ⟨5 + 1, 4, 0, 2⟩ DEFAULT_CONFIG :=
  c6_speed_monotonicity ⟨5, 4, 0, 2⟩ DEFAULT_CONFIG
    (by norm_num [pixelsPerFoot, availableHeight, DEFAULT_CONFIG])

/-- Claim C7: `calculateFlightPath` is total over its numeric domain — for
every flight-numbers value (including negative and out-of-range ones),
every throw type and every canvas config it returns a `FlightPaths` whose
three descriptors are exactly the three `generatePath` results; there is no
failing branch. -/
theorem c7_totality (f : FlightNumbers) (t : ThrowType) (c : CanvasConfig) :
    calculateFlightPath f t c =
      ⟨generatePath f ReleaseAngle.hyzer (shouldMirror t) c,
       generatePath f ReleaseAngle.flat (shouldMirror t) c,
       generatePath f ReleaseAngle.anhyzer (shouldMirror t) c⟩ :=
  rfl

/-!
For the validation claim the rational embedding cannot express a `NaN`
input, so the engine is re-embedded over `NNum := Option ℚ`, where `none`
models a non-finite JavaScript number (`NaN` propagates through `+`, `-`,
`*`, unary `-` and `Math.min`, each of which returns `NaN` as soon as an
operand is `NaN`; `x / 0` is likewise non-finite).  The definitions below
mirror `generatePath` and `calculateFlightPath` line by line with these
lifted operations.
-/

/-- A JavaScript number: `some q` is the finite value `q`, `none` is
non-finite (`NaN` or `±Infinity`). -/
def NNum : Type := Option ℚ

instance : DecidableEq NNum := by
  unfold NNum
  infer_instance

/-- Lift a rational to a (finite) JavaScript number. -/
def nfin (q : ℚ) : NNum := some q

/-- JavaScript `+`: `NaN` propagates. -/
def nadd : NNum → NNum → NNum
  | some a, some b => some (a + b)
  | _, _ => none

/-- JavaScript binary `-`: `NaN` propagates. -/
def nsub : NNum → NNum → NNum
  | some a, some b => some (a - b)
  | _, _ => none

/-- JavaScript `*`: `NaN` propagates. -/
def nmul : NNum → NNum → NNum
  | some a, some b => some (a * b)
  | _, _ => none

/-- JavaScript unary `-`: `NaN` propagates. -/
def nneg : NNum → NNum
  | some a => some (-a)
  | none => none

/-- JavaScript `/`: `NaN` propagates, and division by `0` is non-finite. -/
def ndiv : NNum → NNum → NNum
  | some a, some b => if b = 0 then none else some (a / b)
  | _, _ => none

/-- JavaScript `Math.min`: returns `NaN` if either argument is `NaN`. -/
def nmin : NNum → NNum → NNum
  | some a, some b => some (min a b)
  | _, _ => none

/-- Flight numbers as raw JavaScript numbers (each field possibly
non-finite). -/
structure FlightNumbersN where
  speed : NNum
  glide : NNum
  turn : NNum
  fade : NNum
deriving DecidableEq

/-- A curve descriptor whose coordinates are raw JavaScript numbers. -/
structure PathDescN where
  startX : NNum
  startY : NNum
  cp1X : NNum
  cp1Y : NNum
  cp2X : NNum
  cp2Y : NNum
  endX : NNum
  endY : NNum
deriving DecidableEq

/-- `FlightPaths` over raw JavaScript numbers. -/
structure FlightPathsN where
  hyzer : PathDescN
  flat : PathDescN
  anhyzer : PathDescN
deriving DecidableEq

/-- `generatePath` re-embedded over raw JavaScript numbers, line by line:
the same formulas with the lifted arithmetic. -/
def generatePathN (f : FlightNumbersN) (releaseAngle : ReleaseAngle)
    (mirror : Bool) (config : CanvasConfig) : PathDescN :=
  let sx := nfin config.startX
  let sy := nfin config.startY
  let avH := nsub sy (nfin 20)
  let ppf := ndiv avH (nfin config.maxDistance)
  let baseD := nadd (nfin 30) (nmul f.speed (nfin 28))
  let glideB := nmul f.glide (nfin 5)
  let estD := nmin (nadd baseD glideB) (nfin config.maxDistance)
  let fl := nmul estD ppf
  let eScale := ndiv fl (nfin 250)
  let tE := nmul (nmul f.turn (nfin 10)) eScale
  let tE :=
    match releaseAngle with
    | ReleaseAngle.hyzer => nmul tE (nfin 0.5)
    | ReleaseAngle.anhyzer => nmul tE (nfin 1.6)
    | ReleaseAngle.flat => tE
  let tE := if mirror then nneg tE else tE
  let fE := nmul (nmul f.fade (nfin 15)) eScale
  let fE :=
    match releaseAngle with
    | ReleaseAngle.hyzer => nmul fE (nfin 1.4)
    | ReleaseAngle.anhyzer => nmul fE (nfin 0.6)
    | ReleaseAngle.flat => fE
  let fE := if mirror then nneg fE else fE
  let aH := nmul (nmul f.glide (nfin 6)) eScale
  ⟨sx, sy,
   nadd sx tE, nsub sy (nmul fl (nfin 0.4)),
   nsub (nadd sx (nmul tE (nfin 0.5))) (nmul fE (nfin 0.3)), nadd (nsub sy fl) aH,
   nsub sx fE, nsub sy fl⟩

/-- `calculateFlightPath` re-embedded over raw JavaScript numbers. -/
def calculateFlightPathN (flightNumbers : FlightNumbersN) (throwType : ThrowType)
    (config : CanvasConfig := DEFAULT_CONFIG) : FlightPathsN :=
  let m := shouldMirror throwType
  ⟨generatePathN flightNumbers ReleaseAngle.hyzer m config,
   generatePathN flightNumbers ReleaseAngle.flat m config,
   generatePathN flightNumbers ReleaseAngle.anhyzer m config⟩

/-- Claim C8, counterexample: a malformed input (`speed = NaN`) is not
rejected — `calculateFlightPath` goes straight into the geometry and
returns descriptors whose dependent coordinates are `NaN`; there is no
`InvalidInputError` (the return type has no error variant anywhere in the
source). -/
theorem c8_counterexample :
    (calculateFlightPathN ⟨none, nfin 5, nfin (-1), nfin 3⟩ ThrowType.rhbh
        DEFAULT_CONFIG).flat.endY = none ∧
    (calculateFlightPathN ⟨none, nfin 5, nfin (-1), nfin 3⟩ ThrowType.rhbh
        DEFAULT_CONFIG).flat.endX = none ∧
    (calculateFlightPathN ⟨none, nfin 5, nfin (-1), nfin 3⟩ ThrowType.rhbh
        DEFAULT_CONFIG).flat.startX = nfin 100 :=
  ⟨rfl, rfl, rfl⟩

/-- Claim C8 (amended): `calculateFlightPath` performs no input validation
and never rejects: with a non-finite `speed` field every coordinate of the
flat descriptor other than the fixed start point is non-finite, for every
remaining field value, throw type and canvas config — the malformed value
propagates into the returned path descriptors instead of raising an
`InvalidInputError`. -/
theorem c8_no_validation (g tu fa : NNum) (t : ThrowType) (c : CanvasConfig) :
    (calculateFlightPathN ⟨none, g, tu, fa⟩ t c).flat.endY = none ∧
    (calculateFlightPathN ⟨none, g, tu, fa⟩ t c).flat.endX = none ∧
    (calculateFlightPathN ⟨none, g, tu, fa⟩ t c).flat.cp1X = none ∧
    (calculateFlightPathN ⟨none, g, tu, fa⟩ t c).flat.cp1Y = none ∧
    (calculateFlightPathN ⟨none, g, tu, fa⟩ t c).flat.cp2X = none ∧
    (calculateFlightPathN ⟨none, g, tu, fa⟩ t c).flat.cp2Y = none ∧
    (calculateFlightPathN ⟨none, g, tu, fa⟩ t c).flat.startX = nfin c.startX := by
  cases hm : shouldMirror t <;>
    refine ⟨?_, ?_, ?_, ?_, ?_, ?_, ?_⟩ <;>
      simp only [calculateFlightPathN, generatePathN, hm] <;>
      cases g <;> cases tu <;> cases fa <;>
        simp [nadd, nsub, nmul, nmin, ndiv, nneg, nfin]

/-- Claim C9: omitting the config argument is exactly calling with
`DEFAULT_CONFIG`: the defaulted call and the explicit call agree for every
flight-numbers value and throw type. -/
theorem c9_default_config (f : FlightNumbers) (t : ThrowType) :
    calculateFlightPath f t = calculateFlightPath f t DEFAULT_CONFIG :=
  rfl

/-- Claim C10: the geometry reads only `startX`, `startY` and
`maxDistance` from the canvas config — two configs that agree on those
three fields yield identical `FlightPaths` for every flight-numbers value
and throw type, whatever their `width` and `height`. -/
theorem c10_width_height_irrelevant (f : FlightNumbers) (t : ThrowType)
    (c₁ c₂ : CanvasConfig) (hx : c₁.startX = c₂.startX) (hy : c₁.startY = c₂.startY)
    (hm : c₁.maxDistance = c₂.maxDistance) :
    calculateFlightPath f t c₁ = calculateFlightPath f t c₂ := by
  simp [calculateFlightPath, generatePath, turnEffect, fadeEffect, arcHeight,
    effectScale, flightLength, estimatedDistance, pixelsPerFoot, availableHeight,
    hx, hy, hm]

/-- Claim C10 witness: two configs sharing `startX = 100`, `startY = 280`,
`maxDistance = 400` but with different `width`/`height` give the same
paths. -/
theorem c10_width_height_irrelevant_witness :
    calculateFlightPath ⟨12, 5, -1, 3⟩ ThrowType.rhbh ⟨200, 300, 100, 280, 400⟩
      = calculateFlightPath ⟨12, 5, -1, 3⟩ ThrowType.rhbh ⟨999, 1, 100, 280, 400⟩ :=
  c10_width_height_irrelevant ⟨12, 5, -1, 3⟩ ThrowType.rhbh
    ⟨200, 300, 100, 280, 400⟩ ⟨999, 1, 100, 280, 400⟩ rfl rfl rfl
